import Mathlib

/-!
Verification of the dhybridrpy directory-to-object resolution engine.

Shallow embedding of the core of the `dhybridrpy` package:
* `dhybridrpy/dhybridrpy.py` — path classification (`_process_field`,
  `_process_phase`, `_process_raw`, `_process_file`, `_traverse_directory`),
  timestep enumeration (`timesteps`, `timestep`) and derived-object
  registration (`create`);
* `dhybridrpy/containers.py` — `Container.__getattr__`/`get_data`,
  `Timestep.add_field`/`add_phase`/`add_raw`;
* `dhybridrpy/data.py` — the per-handle sub-resource cache
  (`data`, `xdata`/`ydata`, `_get_coordinate_limits`,
  `_compute_coordinates`, `_get_data_shape`, `_get_data_dtype`)
  and `Raw.dict`.

Python dictionaries are modelled as association lists, numpy/HDF5 numeric
arrays as lists of rationals, and uncaught Python exceptions as `Except`
errors (an uncaught exception aborts catalog construction, so the partially
mutated state is unobservable and is discarded).  File contents are
abstracted by records carrying exactly the sub-resources the code reads
(`DATA`, the `AXIS` group, shape, dtype, raw columns).
-/

namespace Dhy

/-! ### Association lists (model of Python `dict`) -/

/-- Lookup in an association list; `lookupA k d` models `d[k]` / `k in d`. -/
def lookupA {α : Type} [DecidableEq α] {β : Type} (k : α) : List (α × β) → Option β
  | [] => none
  | (k2, v) :: rest => if k = k2 then some v else lookupA k rest

/-- Update/insert in an association list; `updA k v d` models `d[k] = v`. -/
def updA {α : Type} [DecidableEq α] {β : Type} (k : α) (v : β) : List (α × β) → List (α × β)
  | [] => [(k, v)]
  | (k2, v2) :: rest => if k = k2 then (k, v) :: rest else (k2, v2) :: updA k v rest

/-! ### Python string primitives

The source manipulates directory-name tokens with `str.capitalize`,
`str.lower`, `str.isupper` and the regexes `\d+` and `_(\d+)\.h5$`.  All
tokens in this code base are ASCII, so we model the ASCII case mapping,
using Lean's basic-latin `Char.toUpper`/`Char.toLower`, and treat the ASCII
letters as the cased characters. -/

/-- An ASCII uppercase letter. -/
def upperChar (c : Char) : Bool := 65 ≤ c.toNat && c.toNat ≤ 90

/-- An ASCII lowercase letter. -/
def lowerChar (c : Char) : Bool := 97 ≤ c.toNat && c.toNat ≤ 122

/-- A cased character (ASCII model of Python's notion). -/
def isCased (c : Char) : Bool := upperChar c || lowerChar c

/-- Python `str.lower()` (ASCII). -/
def pyLower (s : String) : String := String.mk (s.data.map Char.toLower)

/-- Python `str.capitalize()`: first character uppercased, the rest
lowercased (ASCII). -/
def pyCapitalize (s : String) : String :=
  match s.data with
  | [] => String.mk []
  | c :: cs => String.mk (c.toUpper :: cs.map Char.toLower)

/-- Python `str.isupper()`: at least one cased character, and every cased
character is uppercase. -/
def pyIsUpper (s : String) : Bool :=
  s.data.any isCased && s.data.all (fun c => !isCased c || upperChar c)

/-- The maximal run of decimal digits at the head of a character list. -/
def takeDigitsRun : List Char → List Char
  | [] => []
  | c :: cs => if c.isDigit then c :: takeDigitsRun cs else []

/-- The first maximal run of decimal digits in a character list, if any:
the match of the regex `\d+` (`re.search`). -/
def firstDigitRun : List Char → Option (List Char)
  | [] => none
  | c :: cs => if c.isDigit then some (c :: takeDigitsRun cs) else firstDigitRun cs

/-- Python `int()` on a nonempty string of decimal digits. -/
def digitsToNat (l : List Char) : Nat := l.foldl (fun a c => 10 * a + (c.toNat - 48)) 0

/-- `_SPECIES_PATTERN.search(s)` followed by `int(....group())`
(`dhybridrpy.py` line 101 and its uses): the integer value of the first
run of decimal digits in `s`, or `none` when `s` has no digit. -/
def speciesSearch (s : String) : Option Nat := (firstDigitRun s.data).map digitsToNat

/-- Does the character list contain the substring `pres`?  Models
Python's `"pres" in filename` (`dhybridrpy.py` line 173). -/
def hasPres : List Char → Bool
  | 'p' :: 'r' :: 'e' :: 's' :: _ => true
  | _ :: cs => hasPres cs
  | [] => false

/-- The `TIMESTEP_PATTERN` regex `_(\d+)\.h5$` of `_traverse_directory`
(`dhybridrpy.py` line 193): the captured digits, as `int`, when the
filename ends in `_<digits>.h5`. -/
def timestepOf (filename : String) : Option Nat :=
  match filename.data.reverse with
  | '5' :: 'h' :: '.' :: rest =>
    let ds := takeDigitsRun rest
    match ds, rest.drop ds.length with
    | [], _ => none
    | _ :: _, '_' :: _ => some (digitsToNat ds.reverse)
    | _, _ => none
  | _ => none

/-! ### `containers.py`: `Container` and its `__getattr__` accessor -/

/-- A container qualifier: the `origin` string of a field container or the
`species` of a phase/raw container (an `int`, or the string `"Total"`). -/
inductive Qual where
  | str (s : String)
  | int (n : Nat)
deriving DecidableEq, Repr

/-- Uncaught Python exceptions raised by the embedded code. -/
inductive PyError where
  | attributeError (msg : String)
  | valueError (msg : String)
  | typeError (msg : String)
  | keyError
  | indexError
deriving DecidableEq, Repr

/-- `Container.__init__` state (`containers.py` lines 6–11).  `H` is the
type of the stored dataset handles (`Field`/`Phase`/`Raw` objects). -/
structure ContainerC (H : Type) where
  data_dict : List (Qual × List (String × H))
  timestep : Nat
  container_type : String
  key_name : String
  default_key_value : Qual
deriving Repr

/-- The string-key normalization inside `get_data` (`containers.py` lines
28–29): `if isinstance(key, str) and not key.isupper(): key = key.capitalize()`. -/
def normalizeQual : Qual → Qual
  | .str s => if pyIsUpper s then .str s else .str (pyCapitalize s)
  | .int n => .int n

/-- The closure `get_data` returned by `Container.__getattr__`
(`containers.py` lines 14–37).  `args`/`kwargs` model the Python call
`container.<data_name>(*args, **kwargs)`. -/
def getData {H : Type} (c : ContainerC H) (data_name : String)
    (args : List Qual) (kwargs : List (String × Qual)) : Except PyError H :=
  if args.length + kwargs.length > 1 then
    .error (.typeError "Expected at most one argument.")
  else if kwargs ≠ [] ∧ lookupA c.key_name kwargs = none then
    .error (.typeError "Argument name mismatch.")
  else
    let key := match args.head? with
      | some q => q
      | none => (lookupA c.key_name kwargs).getD c.default_key_value
    let key := normalizeQual key
    match lookupA key c.data_dict with
    | none => .error (.attributeError "qualifier not found at timestep")
    | some bucket =>
      match lookupA data_name bucket with
      | none => .error (.attributeError "name not found at timestep")
      | some h => .ok h

/-- `Container.__getattr__` itself (`containers.py` lines 13 and 39): for
any attribute name it builds the `get_data` closure and returns it; nothing
in its body can raise, so the attribute access always succeeds and the
returned value is a callable. -/
def containerGetattr {H : Type} (c : ContainerC H) (data_name : String) :
    Except PyError (List Qual → List (String × Qual) → Except PyError H) :=
  .ok (getData c data_name)

/-! ### `data.py`: objects and the per-handle sub-resource cache -/

/-- The species attribute of a `Phase`: the literal string `"Total"` or a
parsed integer index (`dhybridrpy.py` line 177). -/
inductive Species where
  | total
  | idx (n : Nat)
deriving DecidableEq, Repr

/-- The identifying attributes of a `Field` object (`data.py` lines
326–330).  `ftype` is the attribute `type` (the spec's "origin"); note the
class defines `type`, not `origin`. -/
structure FieldObj where
  name : String
  timestep : Nat
  lazyFlag : Bool
  ftype : String
deriving DecidableEq, Repr

/-- The identifying attributes of a `Phase` object (`data.py` lines
343–347). -/
structure PhaseObj where
  name : String
  timestep : Nat
  lazyFlag : Bool
  species : Species
deriving DecidableEq, Repr

/-- The identifying attributes of a `Raw` object (`data.py` lines
360–363). -/
structure RawObj where
  name : String
  timestep : Nat
  lazyFlag : Bool
  species : Nat
deriving DecidableEq, Repr

/-- The slice of an HDF5 field/phase file that `data.py` reads: the
`AXIS` group (per-axis two-element limit arrays), the `DATA` shape and
dtype metadata, and the `DATA` payload.  The payload is stored already
transposed (`file["DATA"][:].T`, `data.py` line 85), since no claim
distinguishes the two layouts. -/
structure H5File where
  axisLims : List (String × List ℚ)
  dataShape : List Nat
  dataDtype : String
  dataT : List ℚ
deriving DecidableEq, Repr

/-- A value cached in `Data._data_dict`: a realized array (eager `DATA`,
coordinates, or limits), or the dask deferred-array placeholder stored for
`DATA` in lazy mode (`data.py` lines 87–91). -/
inductive CVal where
  | rd (a : List ℚ)
  | deferredData
deriving DecidableEq, Repr

/-- The mutable state of a `Data` handle (`data.py` lines 16–22 and
41–45): the backing file, name, laziness flag, the `_data_dict` cache and
the `_data_shape`/`_data_dtype` memo attributes. -/
structure DataHandle where
  file : H5File
  name : String
  timestep : Nat
  lazyFlag : Bool
  data_dict : List (String × CVal)
  data_shape : Option (List Nat)
  data_dtype : Option String
deriving DecidableEq, Repr

/-- `Data._get_coordinate_limits` (`data.py` lines 47–52).  Returns the
value, the updated handle, and the number of file opens performed.  (A
well-formed file contains every axis the handle asks for; the `getD`
default is never exercised by the claims.) -/
def getCoordinateLimits (h : DataHandle) (axis_name : String) :
    CVal × DataHandle × Nat :=
  let key := axis_name ++ " lims"
  match lookupA key h.data_dict with
  | some v => (v, h, 0)
  | none =>
    let v := CVal.rd ((lookupA axis_name h.file.axisLims).getD [])
    (v, { h with data_dict := updA key v h.data_dict }, 1)

/-- The coordinate array built by `_compute_coordinates` (`data.py` lines
58–60): `delta*grid + (delta/2) + axis_limits[0]` with
`delta = (axis_limits[1] - axis_limits[0]) / size` and `grid = arange(size)`.
(`da.arange` and `np.arange` produce the same element values.) -/
def coordArray (axis_limits : List ℚ) (size : Nat) : List ℚ :=
  let delta := (axis_limits.getD 1 0 - axis_limits.getD 0 0) / (size : ℚ)
  (List.range size).map (fun i : ℕ => delta * (i : ℚ) + delta / 2 + axis_limits.getD 0 0)

/-- `Data._compute_coordinates` (`data.py` lines 54–61). -/
def computeCoordinates (h : DataHandle) (axis_name : String) (size : Nat) :
    CVal × DataHandle × Nat :=
  let key := axis_name ++ " coords"
  match lookupA key h.data_dict with
  | some v => (v, h, 0)
  | none =>
    let lims := getCoordinateLimits h axis_name
    let limArr := match lims.1 with
      | .rd a => a
      | .deferredData => []
    let v := CVal.rd (coordArray limArr size)
    (v, { lims.2.1 with data_dict := updA key v lims.2.1.data_dict }, lims.2.2)

/-- `Data._get_data_shape` (`data.py` lines 63–69): the reversed on-disk
shape, memoized in `_data_shape`. -/
def getDataShape (h : DataHandle) : List Nat × DataHandle × Nat :=
  match h.data_shape with
  | some s => (s, h, 0)
  | none =>
    let s := h.file.dataShape.reverse
    (s, { h with data_shape := some s }, 1)

/-- `Data._get_data_dtype` (`data.py` lines 71–76). -/
def getDataDtype (h : DataHandle) : String × DataHandle × Nat :=
  match h.data_dtype with
  | some d => (d, h, 0)
  | none =>
    let d := h.file.dataDtype
    (d, { h with data_dtype := some d }, 1)

/-- The `data` property (`data.py` lines 78–95): cached under the handle's
name; eager mode loads the transposed `DATA` payload in one file open,
lazy mode probes shape and dtype and stores a deferred array. -/
def dataProp (h : DataHandle) : CVal × DataHandle × Nat :=
  match lookupA h.name h.data_dict with
  | some v => (v, h, 0)
  | none =>
    if h.lazyFlag then
      let s := getDataShape h
      let d := getDataDtype s.2.1
      let v := CVal.deferredData
      (v, { d.2.1 with data_dict := updA h.name v d.2.1.data_dict }, s.2.2 + d.2.2)
    else
      let v := CVal.rd h.file.dataT
      (v, { h with data_dict := updA h.name v h.data_dict }, 1)

/-- The `xdata` property (`data.py` lines 97–100). -/
def xdataProp (h : DataHandle) : CVal × DataHandle × Nat :=
  let s := getDataShape h
  let c := computeCoordinates s.2.1 "X1 AXIS" (s.1.getD 0 0)
  (c.1, c.2.1, s.2.2 + c.2.2)

/-- The `ydata` property (`data.py` lines 102–105). -/
def ydataProp (h : DataHandle) : CVal × DataHandle × Nat :=
  let s := getDataShape h
  let c := computeCoordinates s.2.1 "X2 AXIS" (s.1.getD 1 0)
  (c.1, c.2.1, s.2.2 + c.2.2)

/-- The `xlimdata` property (`data.py` lines 112–115). -/
def xlimdataProp (h : DataHandle) : CVal × DataHandle × Nat :=
  getCoordinateLimits h "X1 AXIS"

/-! ### `data.py`: `Raw.dict` -/

/-- A raw particle dump: named 1-D columns, enumerable in file order. -/
structure H5RawFile where
  columns : List (String × List ℚ)
deriving DecidableEq, Repr

/-- The eager branch of `Raw.dict` (`data.py` lines 374, 380–381): for each
enumerated key, store `file[key][:]`. -/
def rawDictEager (f : H5RawFile) : List (String × List ℚ) :=
  f.columns.map (fun kv => (kv.1, (lookupA kv.1 f.columns).getD []))

/-- The lazy branch of `Raw.dict` (`data.py` lines 370–379), after
materializing every stored deferred column.  `dict_helper` closes over the
loop variable `key` and is only invoked at materialization time, when
Python late binding makes `key` hold the *last* enumerated key — so every
deferred column reads the file at the final key. -/
def rawDictLazyMaterialized (f : H5RawFile) : List (String × List ℚ) :=
  match f.columns.getLast? with
  | none => []
  | some last => f.columns.map (fun kv => (kv.1, (lookupA last.1 f.columns).getD []))

/-! ### `containers.py`: `Timestep` insertion -/

/-- `Timestep.__init__` state (`containers.py` lines 82–86): the
pre-declared field origin buckets and the (default-)dicts for phases and
raw files. -/
structure TimestepC where
  timestep : Nat
  fields_dict : List (String × List (String × FieldObj))
  phases_dict : List (Species × List (String × PhaseObj))
  raw_dict : List (Nat × List (String × RawObj))
deriving DecidableEq, Repr

/-- A fresh `Timestep(ts)`. -/
def TimestepC.init (ts : Nat) : TimestepC :=
  ⟨ts, [("Total", []), ("External", []), ("Self", [])], [], []⟩

/-- `Timestep.add_field` (`containers.py` lines 94–97) reads
`field.origin`; `Field` objects (`data.py` line 329) only define the
attribute `type`, so in Python this unconditionally raises
`AttributeError` before touching any dictionary. -/
def addField (_t : TimestepC) (_f : FieldObj) : Except PyError TimestepC :=
  .error (.attributeError "Field object has no attribute origin")

/-- `Timestep.add_phase` (`containers.py` lines 99–100); `_phases_dict` is
a defaultdict, so a novel species auto-creates its bucket. -/
def addPhase (t : TimestepC) (p : PhaseObj) : TimestepC :=
  let bucket := (lookupA p.species t.phases_dict).getD []
  { t with phases_dict := updA p.species (updA p.name p bucket) t.phases_dict }

/-- `Timestep.add_raw` (`containers.py` lines 102–103). -/
def addRaw (t : TimestepC) (r : RawObj) : TimestepC :=
  let bucket := (lookupA r.species t.raw_dict).getD []
  { t with raw_dict := updA r.species (updA r.name r bucket) t.raw_dict }

/-! ### `dhybridrpy.py`: classification and traversal -/

/-- `_FIELD_MAPPING` (`dhybridrpy.py` lines 89–93). -/
def FIELD_MAPPING : List (String × String) :=
  [("Magnetic", "B"), ("Electric", "E"), ("CurrentDens", "J")]

/-- `_PHASE_MAPPING` (`dhybridrpy.py` lines 94–97). -/
def PHASE_MAPPING : List (String × String) :=
  [("FluidVel", "V"), ("PressureTen", "P")]

/-- `_COMPONENT_MAPPING` (`dhybridrpy.py` lines 98–100), applied as
`if component in _COMPONENT_MAPPING: component = _COMPONENT_MAPPING[component]`. -/
def mapComponent (c : String) : String :=
  (lookupA c [("Intensity", "magnitude")]).getD c

/-- Python `list.insert(i, x)` (clamping, as `list.insert` does). -/
def insertAt (l : List String) (i : Nat) (x : String) : List String :=
  l.take i ++ x :: l.drop i

/-- Outcome of classifying one file: a constructed object, a skip (warning
logged, nothing inserted), or an uncaught exception. -/
inductive ProcOut (α : Type) where
  | ok (a : α)
  | skip
  | err (e : PyError)
deriving DecidableEq, Repr

/-- The species parse of `_process_phase` (`dhybridrpy.py` line 177):
`int(search(s).group()) if s != "Total" else s`; `search` returning `None`
makes `.group()` raise `AttributeError`. -/
def phaseSpeciesParse (species_str : String) : Except PyError Species :=
  if species_str = "Total" then .ok .total
  else match speciesSearch species_str with
    | some n => .ok (.idx n)
    | none => .error (.attributeError "NoneType object has no attribute group")

/-- The species parse of `_process_raw` (`dhybridrpy.py` line 186):
always `int(search(s).group())` — no `"Total"` special case. -/
def rawSpeciesParse (species_str : String) : Except PyError Nat :=
  match speciesSearch species_str with
  | some n => .ok n
  | none => .error (.attributeError "NoneType object has no attribute group")

/-- The classification part of `_process_field` (`dhybridrpy.py` lines
135–153): category lookup, the synthetic `"Total"` insertion for
`CurrentDens`, component rewriting, and construction of the `Field`
object.  (The `getD ""` defaults are never exercised: once
`folder_components[1]` exists the list has length ≥ 2.) -/
def processFieldClassify (lazyFlag : Bool) (folder_components : List String)
    (timestep : Nat) : ProcOut FieldObj :=
  match folder_components[1]? with
  | none => .err .indexError
  | some category =>
    let comps := if category = "CurrentDens" then insertAt folder_components 2 "Total"
                 else folder_components
    let field_type := (comps[comps.length - 2]?).getD ""
    let component := mapComponent ((comps[comps.length - 1]?).getD "")
    match lookupA category FIELD_MAPPING with
    | none => .skip
    | some pre => .ok ⟨pre ++ component, timestep, lazyFlag, field_type⟩

/-- The classification part of `_process_phase` (`dhybridrpy.py` lines
156–180): the `FluidVel`/`PressureTen` special case, the
`x3x2x1`-with-`pres` override, and the species parse.  The species parse
raising discards the object (the exception aborts construction, so the
`_PHASE_NAMES` mutation that precedes it is unobservable). -/
def processPhaseClassify (lazyFlag : Bool) (folder_components : List String)
    (timestep : Nat) (filename : String) : ProcOut PhaseObj :=
  match folder_components[1]? with
  | none => .err .indexError
  | some name0 =>
    let branch : ProcOut (String × String) :=
      if name0 = "FluidVel" ∨ name0 = "PressureTen" then
        let species_str := (folder_components[folder_components.length - 2]?).getD ""
        let component := mapComponent ((folder_components[folder_components.length - 1]?).getD "")
        match lookupA name0 PHASE_MAPPING with
        | none => .skip
        | some pre => .ok (pre ++ component, species_str)
      else
        .ok (name0, (folder_components[folder_components.length - 1]?).getD "")
    match branch with
    | .skip => .skip
    | .err e => .err e
    | .ok nameSpec =>
      let name2 := if nameSpec.1 = "x3x2x1" ∧ hasPres filename.data then "P" else nameSpec.1
      match phaseSpeciesParse nameSpec.2 with
      | .error e => .err e
      | .ok sp => .ok ⟨name2, timestep, lazyFlag, sp⟩

/-- The classification part of `_process_raw` (`dhybridrpy.py` lines
183–189): species from the last path component, name fixed to `"raw"`. -/
def processRawClassify (lazyFlag : Bool) (folder_components : List String)
    (timestep : Nat) : ProcOut RawObj :=
  match folder_components.getLast? with
  | none => .err .indexError
  | some species_str =>
    match rawSpeciesParse species_str with
    | .error e => .err e
    | .ok n => .ok ⟨"raw", timestep, lazyFlag, n⟩

/-- `DHybridrpy` catalog state: the laziness and zero-exclusion flags, the
`_timesteps_dict`, and the `_FIELD_NAMES`/`_PHASE_NAMES` sets (modelled as
duplicate-free lists in insertion order). -/
structure Catalog where
  lazyFlag : Bool
  exclude_timestep_zero : Bool
  timesteps_dict : List (Nat × TimestepC)
  fieldNames : List String
  phaseNames : List String
deriving DecidableEq, Repr

/-- A fresh catalog, before traversal. -/
def initCatalog (lazyFlag exclude : Bool) : Catalog := ⟨lazyFlag, exclude, [], [], []⟩

/-- Python `set.add`. -/
def addName (n : String) (l : List String) : List String :=
  if n ∈ l then l else l ++ [n]

/-- `if timestep not in self._timesteps_dict: ... = Timestep(timestep)`
(`dhybridrpy.py` lines 151–152, 178–179, 187–188). -/
def ensureTimestep (cat : Catalog) (ts : Nat) : Catalog :=
  match lookupA ts cat.timesteps_dict with
  | some _ => cat
  | none => { cat with timesteps_dict := updA ts (TimestepC.init ts) cat.timesteps_dict }

/-- `self._timesteps_dict[timestep]` after `ensureTimestep` (always
present; the default is never exercised). -/
def getTs (cat : Catalog) (ts : Nat) : TimestepC :=
  (lookupA ts cat.timesteps_dict).getD (TimestepC.init ts)

/-- `_process_field` acting on the catalog (`dhybridrpy.py` lines
135–154), including the `_FIELD_NAMES` update and the `add_field` call. -/
def processFieldCat (cat : Catalog) (folder_components : List String)
    (timestep : Nat) : Except PyError Catalog :=
  match processFieldClassify cat.lazyFlag folder_components timestep with
  | .err e => .error e
  | .skip => .ok cat
  | .ok f =>
    let cat1 := { cat with fieldNames := addName f.name cat.fieldNames }
    let cat2 := ensureTimestep cat1 timestep
    match addField (getTs cat2 timestep) f with
    | .error e => .error e
    | .ok t => .ok { cat2 with timesteps_dict := updA timestep t cat2.timesteps_dict }

/-- `_process_phase` acting on the catalog (`dhybridrpy.py` lines
156–181). -/
def processPhaseCat (cat : Catalog) (folder_components : List String)
    (timestep : Nat) (filename : String) : Except PyError Catalog :=
  match processPhaseClassify cat.lazyFlag folder_components timestep filename with
  | .err e => .error e
  | .skip => .ok cat
  | .ok p =>
    let cat1 := { cat with phaseNames := addName p.name cat.phaseNames }
    let cat2 := ensureTimestep cat1 timestep
    .ok { cat2 with
          timesteps_dict := updA timestep (addPhase (getTs cat2 timestep) p) cat2.timesteps_dict }

/-- `_process_raw` acting on the catalog (`dhybridrpy.py` lines 183–190). -/
def processRawCat (cat : Catalog) (folder_components : List String)
    (timestep : Nat) : Except PyError Catalog :=
  match processRawClassify cat.lazyFlag folder_components timestep with
  | .err e => .error e
  | .skip => .ok cat
  | .ok r =>
    let cat2 := ensureTimestep cat timestep
    .ok { cat2 with
          timesteps_dict := updA timestep (addRaw (getTs cat2 timestep) r) cat2.timesteps_dict }

/-- `_process_file` (`dhybridrpy.py` lines 122–133): dispatch on
`folder_components[0]`; an unknown output type is warned and the file is
not processed.  (`relpath(...).split(os.sep)` is never empty.) -/
def processFile (cat : Catalog) (folder_components : List String)
    (filename : String) (timestep : Nat) : Except PyError Catalog :=
  match folder_components.head? with
  | some "Fields" => processFieldCat cat folder_components timestep
  | some "Phase" => processPhaseCat cat folder_components timestep filename
  | some "Raw" => processRawCat cat folder_components timestep
  | _ => .ok cat

/-- One file discovered by the walk: its directory path relative to the
output root, split into components, and its filename. -/
structure Entry where
  folder_components : List String
  filename : String
deriving DecidableEq, Repr

/-- The body of `_traverse_directory`'s inner loop (`dhybridrpy.py` lines
195–199): files not matching the timestep pattern are ignored. -/
def traverseStep (cat : Catalog) (e : Entry) : Except PyError Catalog :=
  match timestepOf e.filename with
  | none => .ok cat
  | some ts => processFile cat e.folder_components e.filename ts

/-- `_traverse_directory` (`dhybridrpy.py` lines 192–199) over the list of
discovered files: the first uncaught exception aborts construction. -/
def traverseList (cat : Catalog) : List Entry → Except PyError Catalog
  | [] => .ok cat
  | e :: es =>
    match traverseStep cat e with
    | .error err => .error err
    | .ok cat2 => traverseList cat2 es

/-! ### `dhybridrpy.py`: timestep enumeration and lookup -/

/-- `np.sort` on the dict's keys (`dhybridrpy.py` line 218). -/
def sortKeys (l : List Nat) : List Nat := List.insertionSort (fun a b => a ≤ b) l

/-- `DHybridrpy.timesteps` (`dhybridrpy.py` lines 215–221): sorted keys,
dropping the first element when it is 0 and `exclude_timestep_zero` holds. -/
def timestepsFn (cat : Catalog) : List Nat :=
  let s := sortKeys (cat.timesteps_dict.map Prod.fst)
  if cat.exclude_timestep_zero = true ∧ s.head? = some 0 then s.drop 1 else s

/-- `DHybridrpy.timestep` (`dhybridrpy.py` lines 201–205). -/
def timestepFn (cat : Catalog) (ts : Nat) : Except PyError TimestepC :=
  match lookupA ts cat.timesteps_dict with
  | some t => .ok t
  | none => .error (.valueError "Timestep not found.")

/-! ### `dhybridrpy.py`: `create` (derived objects) -/

/-- A base object passed to `create`: a `Field` or a `Phase`. -/
inductive FPObj where
  | fld (f : FieldObj)
  | ph (p : PhaseObj)
deriving DecidableEq, Repr

/-- The `timestep` attribute of a base object. -/
def FPObj.timestep : FPObj → Nat
  | .fld f => f.timestep
  | .ph p => p.timestep

/-- The timestep validation of `Data.create_derived_object` (`data.py`
lines 295–297).  The array payload and coordinate-cache copying (lines
299–322) are elided: no claim concerns the derived object's data, only its
identifying attributes. -/
def derivedTimestepCheck (objects : List FPObj) : Except PyError Nat :=
  match objects.head? with
  | none => .error .indexError
  | some base =>
    if objects.any (fun o => o.timestep ≠ base.timestep) then
      .error (.valueError "All objects must be from the same timestep.")
    else .ok base.timestep

/-- `DHybridrpy.create` (`dhybridrpy.py` lines 352–400): dispatch on the
first object's class, duplicate-name check against
`obj_dict[key].values()` — the bucket of the first object's `type`
(fields) or `species` (phases) — then derived-object construction and
registration.  For fields `obj_dict[key]` is a plain dict access (KeyError
on an unknown type), for phases a defaultdict access. -/
def create (cat : Catalog) (name : String) (objects : List FPObj) :
    Except PyError (Catalog × FPObj) :=
  match objects.head? with
  | none => .error .indexError
  | some first =>
    match first with
    | .fld f =>
      match lookupA f.timestep cat.timesteps_dict with
      | none => .error .keyError
      | some tsObj =>
        match lookupA f.ftype tsObj.fields_dict with
        | none => .error .keyError
        | some bucket =>
          if bucket.any (fun kv => kv.2.name = name) then
            .error (.valueError "Field already exists at this timestep")
          else
            let cat1 := { cat with fieldNames := addName name cat.fieldNames }
            match derivedTimestepCheck objects with
            | .error e => .error e
            | .ok ts2 =>
              let newObj : FieldObj := ⟨name, ts2, f.lazyFlag, f.ftype⟩
              match addField tsObj newObj with
              | .error e => .error e
              | .ok t =>
                .ok ({ cat1 with timesteps_dict := updA f.timestep t cat1.timesteps_dict },
                     .fld newObj)
    | .ph p =>
      match lookupA p.timestep cat.timesteps_dict with
      | none => .error .keyError
      | some tsObj =>
        let bucket := (lookupA p.species tsObj.phases_dict).getD []
        if bucket.any (fun kv => kv.2.name = name) then
          .error (.valueError "Phase already exists at this timestep")
        else
          let cat1 := { cat with phaseNames := addName name cat.phaseNames }
          match derivedTimestepCheck objects with
          | .error e => .error e
          | .ok ts2 =>
            let newObj : PhaseObj := ⟨name, ts2, p.lazyFlag, p.species⟩
            .ok ({ cat1 with
                   timesteps_dict := updA p.timestep (addPhase tsObj newObj) cat1.timesteps_dict },
                 .ph newObj)

/-! ### Concrete fixtures used by witness theorems -/

/-- A field container holding one handle `Bx` under origin `"Total"`. -/
def fixC8 : ContainerC Nat :=
  ⟨[(.str "Total", [("Bx", 7)])], 0, "Field", "origin", .str "Total"⟩

/-- A field container for the deferred-error fixture. -/
def fixC10 : ContainerC Nat :=
  ⟨[(.str "Total", [("Bx", 7)])], 0, "Field", "origin", .str "Total"⟩

/-- A catalog observing timesteps 32, 0, 16 (discovery order). -/
def fixC9 : Catalog :=
  ⟨false, true,
   [(32, TimestepC.init 32), (0, TimestepC.init 0), (16, TimestepC.init 16)], [], []⟩

/-- A catalog whose timestep 3 already holds a Phase named `foo` for
species 1. -/
def fixC3 : Catalog :=
  ⟨false, true,
   [(3, ⟨3, [("Total", []), ("External", []), ("Self", [])],
        [(Species.idx 1, [("foo", ⟨"foo", 3, false, Species.idx 1⟩)])], []⟩)],
   [], ["foo"]⟩

/-- A species-2 phase at timestep 3, used as `create` input. -/
def fixC3phase : PhaseObj := ⟨"p1x1", 3, false, Species.idx 2⟩

/-- A data handle over a file with one axis `(0, 10)` and shape `[5]`. -/
def fixC6 : DataHandle :=
  ⟨⟨[("X1 AXIS", [0, 10])], [5], "float64", [4, 4, 4, 4, 4]⟩,
   "nm", 0, false, [], none, none⟩

/-! ## Theorems -/

/-! ### Association-list lemmas -/

theorem lookupA_updA_self {α : Type} [DecidableEq α] {β : Type} (k : α) (v : β)
    (d : List (α × β)) : lookupA k (updA k v d) = some v := by
  induction d with
  | nil => simp [lookupA, updA]
  | cons p rest ih =>
    obtain ⟨k2, v2⟩ := p
    by_cases h : k = k2
    · simp [lookupA, updA, h]
    · simp [lookupA, updA, h, ih]

theorem lookupA_updA_of_ne {α : Type} [DecidableEq α] {β : Type} {k k3 : α} (v : β)
    (d : List (α × β)) (hne : k3 ≠ k) : lookupA k3 (updA k v d) = lookupA k3 d := by
  induction d with
  | nil => simp [lookupA, updA, hne]
  | cons p rest ih =>
    obtain ⟨k2, v2⟩ := p
    by_cases h : k = k2
    · subst h
      simp [lookupA, updA, hne]
    · by_cases h3 : k3 = k2 <;> simp [lookupA, updA, h, h3, ih]

theorem lookupA_eq_some_mem {α : Type} [DecidableEq α] {β : Type} {k : α} {b : β}
    {d : List (α × β)} (h : lookupA k d = some b) : (k, b) ∈ d := by
  induction d with
  | nil => simp [lookupA] at h
  | cons p rest ih =>
    obtain ⟨k2, v2⟩ := p
    by_cases hk : k = k2
    · subst hk
      simp [lookupA] at h
      simp [h]
    · simp [lookupA, hk] at h
      exact List.mem_cons_of_mem _ (ih h)

theorem lookupA_isSome_of_mem_fst {α : Type} [DecidableEq α] {β : Type} {k : α}
    {d : List (α × β)} (h : k ∈ d.map Prod.fst) : ∃ b, lookupA k d = some b := by
  induction d with
  | nil => simp at h
  | cons p rest ih =>
    obtain ⟨k2, v2⟩ := p
    by_cases hk : k = k2
    · exact ⟨v2, by simp [lookupA, hk]⟩
    · simp only [List.map_cons, List.mem_cons] at h
      rcases h with h | h
      · exact absurd h hk
      · obtain ⟨b, hb⟩ := ih h
        exact ⟨b, by simp [lookupA, hk, hb]⟩

/-! ### ASCII case-mapping lemmas -/

theorem char_toNat_ofNat {n : Nat} (h : n < 55296) : (Char.ofNat n).toNat = n := by
  have hv : n.isValidChar := Or.inl h
  simp [Char.ofNat, dif_pos hv, Char.ofNatAux, Char.toNat, UInt32.toNat,
    BitVec.toNat_ofNatLt]

theorem toLower_of_upper {c : Char} (h : 65 ≤ c.toNat ∧ c.toNat ≤ 90) :
    c.toLower = Char.ofNat (c.toNat + 32) := by
  simp [Char.toLower, h]

theorem toLower_of_not_upper {c : Char} (h : ¬ (65 ≤ c.toNat ∧ c.toNat ≤ 90)) :
    c.toLower = c := by
  simp [Char.toLower]
  intro h1 h2
  exact absurd ⟨h1, h2⟩ h

theorem toUpper_of_lower {c : Char} (h : 97 ≤ c.toNat ∧ c.toNat ≤ 122) :
    c.toUpper = Char.ofNat (c.toNat - 32) := by
  simp [Char.toUpper, h]

theorem toUpper_of_not_lower {c : Char} (h : ¬ (97 ≤ c.toNat ∧ c.toNat ≤ 122)) :
    c.toUpper = c := by
  simp [Char.toUpper]
  intro h1 h2
  exact absurd ⟨h1, h2⟩ h

theorem toUpper_toLower (c : Char) : c.toLower.toUpper = c.toUpper := by
  by_cases h : 65 ≤ c.toNat ∧ c.toNat ≤ 90
  · have hn : c.toNat + 32 < 55296 := by omega
    have h1 : c.toLower.toNat = c.toNat + 32 := by
      rw [toLower_of_upper h, char_toNat_ofNat hn]
    have h2 : c.toLower.toUpper = Char.ofNat (c.toLower.toNat - 32) :=
      toUpper_of_lower (by omega)
    have h3 : c.toUpper = c := toUpper_of_not_lower (by omega)
    rw [h2, h1, h3, Nat.add_sub_cancel, Char.ofNat_toNat]
  · rw [toLower_of_not_upper h]

theorem toLower_toLower (c : Char) : c.toLower.toLower = c.toLower := by
  by_cases h : 65 ≤ c.toNat ∧ c.toNat ≤ 90
  · have hn : c.toNat + 32 < 55296 := by omega
    have h1 : c.toLower.toNat = c.toNat + 32 := by
      rw [toLower_of_upper h, char_toNat_ofNat hn]
    exact toLower_of_not_upper (by omega)
  · rw [toLower_of_not_upper h, toLower_of_not_upper h]

theorem toUpper_toUpper (c : Char) : c.toUpper.toUpper = c.toUpper := by
  by_cases h : 97 ≤ c.toNat ∧ c.toNat ≤ 122
  · have hn : c.toNat - 32 < 55296 := by omega
    have h1 : c.toUpper.toNat = c.toNat - 32 := by
      rw [toUpper_of_lower h, char_toNat_ofNat hn]
    exact toUpper_of_not_lower (by omega)
  · rw [toUpper_of_not_lower h, toUpper_of_not_lower h]

theorem upperChar_toLower (c : Char) : upperChar c.toLower = false := by
  by_cases h : 65 ≤ c.toNat ∧ c.toNat ≤ 90
  · have hn : c.toNat + 32 < 55296 := by omega
    have h1 : c.toLower.toNat = c.toNat + 32 := by
      rw [toLower_of_upper h, char_toNat_ofNat hn]
    simp [upperChar, h1]
    omega
  · rw [toLower_of_not_upper h]
    simp [upperChar]
    omega

theorem map_toLower_toLower (l : List Char) :
    (l.map Char.toLower).map Char.toLower = l.map Char.toLower := by
  induction l with
  | nil => rfl
  | cons c cs ih => simp [ih, toLower_toLower]

theorem pyCapitalize_pyLower (s : String) :
    pyCapitalize (pyLower s) = pyCapitalize s := by
  obtain ⟨l⟩ := s
  cases l with
  | nil => rfl
  | cons c cs =>
    show String.mk ((c.toLower).toUpper :: (cs.map Char.toLower).map Char.toLower)
        = String.mk (c.toUpper :: cs.map Char.toLower)
    rw [toUpper_toLower, map_toLower_toLower]

theorem pyCapitalize_pyCapitalize (s : String) :
    pyCapitalize (pyCapitalize s) = pyCapitalize s := by
  obtain ⟨l⟩ := s
  cases l with
  | nil => rfl
  | cons c cs =>
    show String.mk ((c.toUpper).toUpper :: (cs.map Char.toLower).map Char.toLower)
        = String.mk (c.toUpper :: cs.map Char.toLower)
    rw [toUpper_toUpper, map_toLower_toLower]

theorem pyIsUpper_pyLower (s : String) : pyIsUpper (pyLower s) = false := by
  have hdata : (pyLower s).data = s.data.map Char.toLower := rfl
  unfold pyIsUpper
  rw [hdata]
  rcases h : (s.data.map Char.toLower).any isCased with _ | _
  · simp [h]
  · simp only [h, Bool.true_and]
    rw [List.any_eq_true] at h
    obtain ⟨c, hc, hcc⟩ := h
    obtain ⟨c0, _, rfl⟩ := List.mem_map.mp hc
    refine List.all_eq_false.mpr ⟨c0.toLower, hc, ?_⟩
    simp [hcc, upperChar_toLower]

/-! ### Container accessor lemmas -/

theorem getData_single_pos {H : Type} (c : ContainerC H) (n : String) (a b : Qual)
    (h : normalizeQual a = normalizeQual b) :
    getData c n [a] [] = getData c n [b] [] := by
  simp only [getData, List.length_cons, List.length_nil, List.head?_cons, h]

theorem normalizeQual_of_not_upper {q : String} (h : pyIsUpper q = false) :
    normalizeQual (.str q) = .str (pyCapitalize q) := by
  simp [normalizeQual, h]

theorem normalizeQual_pyCapitalize (q : String) :
    normalizeQual (.str (pyCapitalize q)) = .str (pyCapitalize q) := by
  unfold normalizeQual
  rcases h : pyIsUpper (pyCapitalize q) with _ | _
  · simp [h, pyCapitalize_pyCapitalize]
  · simp [h]

/-! ### Claim C4 -/

/-- Claim C4 (code bug witnessed): on a two-column raw file the eager
branch of `Raw.dict` maps each key to its own stored column, but the lazy
branch materializes every column to the LAST enumerated key's column —
`dict_helper` late-binds the loop variable `key` — so `dict["p1"]` yields
`"x1"`'s data, contradicting the claimed per-key correspondence. -/
theorem C4_raw_dict_lazy_late_binding :
    rawDictEager ⟨[("p1", [1]), ("x1", [2])]⟩ = [("p1", [1]), ("x1", [2])] ∧
    rawDictLazyMaterialized ⟨[("p1", [1]), ("x1", [2])]⟩ = [("p1", [2]), ("x1", [2])] ∧
    lookupA "p1" (rawDictLazyMaterialized ⟨[("p1", [1]), ("x1", [2])]⟩) ≠
      lookupA "p1" [("p1", [1]), ("x1", [2])] := by
  refine ⟨by decide, by decide, by decide⟩

/-! ### Claim C6 -/

/-- Claim C6: the coordinate array built by `_compute_coordinates` (the
common implementation behind `xdata`/`ydata`/`zdata`) follows the
cell-center convention: `coord[i] = low + step*(i + 1/2)` with
`step = (high - low)/length` for every index `i < length`; and on a handle
with cold caches `_compute_coordinates` produces exactly this array from
the axis limits stored in the file. -/
theorem C6_cell_center_convention (low high : ℚ) (size i : Nat) (hi : i < size)
    (h : DataHandle) (axis : String)
    (hc : lookupA (axis ++ " coords") h.data_dict = none)
    (hl : lookupA (axis ++ " lims") h.data_dict = none)
    (hax : lookupA axis h.file.axisLims = some [low, high]) :
    (coordArray [low, high] size)[i]? =
      some (low + ((high - low) / (size : ℚ)) * ((i : ℚ) + 1/2)) ∧
    (computeCoordinates h axis size).1 = CVal.rd (coordArray [low, high] size) := by
  constructor
  · unfold coordArray
    simp only [List.getD_cons_succ, List.getD_cons_zero]
    rw [List.getElem?_map, List.getElem?_range hi, Option.map_some']
    congr 1
    ring
  · unfold computeCoordinates getCoordinateLimits
    simp [hc, hl, hax]

/-- Witness for C6 at limits `(0, 10)`, length 5, index 2 (the spec's own
example: step 2, coords `[1, 3, 5, 7, 9]`). -/
theorem C6_witness :
    (coordArray [0, 10] 5)[2]? =
      some (0 + ((10 - 0) / ((5 : Nat) : ℚ)) * (((2 : Nat) : ℚ) + 1/2)) ∧
    (computeCoordinates fixC6 "X1 AXIS" 5).1 = CVal.rd (coordArray [0, 10] 5) :=
  C6_cell_center_convention 0 10 5 2 (by decide) fixC6 "X1 AXIS"
    (by decide) (by decide) (by decide)

/-! ### Claim C7 -/

/-- Claim C7: for kind `"Fields"` with category `"CurrentDens"`, a
synthetic `"Total"` component is inserted at index 2 of the path
components, and the file `Fields/CurrentDens/x/foo_5.h5` classifies to a
Field with timestep 5, field type (the attribute the spec calls "origin")
`"Total"`, and name `"Jx"`. -/
theorem C7_currentdens_synthetic_total :
    (∀ rest : List String,
      insertAt ("Fields" :: "CurrentDens" :: rest) 2 "Total"
        = "Fields" :: "CurrentDens" :: "Total" :: rest) ∧
    timestepOf "foo_5.h5" = some 5 ∧
    (∀ lz : Bool, processFieldClassify lz ["Fields", "CurrentDens", "x"] 5 =
      .ok ⟨"Jx", 5, lz, "Total"⟩) := by
  refine ⟨fun rest => rfl, rfl, fun lz => ?_⟩
  cases lz <;> rfl

/-! ### Claim C8 -/

/-- Claim C8: a string qualifier that is not fully upper-case is
normalized to capitalized form before lookup while fully upper-case
qualifiers are untouched; hence for a qualifier that is neither
capitalized nor all-upper-case, looking up with the qualifier, its
lower-cased form, or its capitalized form resolves identically. -/
theorem C8_case_normalization {H : Type} (c : ContainerC H) (data_name q : String)
    (hNotUpper : pyIsUpper q = false) (hNotCap : q ≠ pyCapitalize q) :
    normalizeQual (.str q) = .str (pyCapitalize q) ∧
    (∀ u : String, pyIsUpper u = true → normalizeQual (.str u) = .str u) ∧
    getData c data_name [.str q] [] = getData c data_name [.str (pyLower q)] [] ∧
    getData c data_name [.str q] [] = getData c data_name [.str (pyCapitalize q)] [] := by
  have h1 : normalizeQual (.str q) = .str (pyCapitalize q) :=
    normalizeQual_of_not_upper hNotUpper
  have h2 : normalizeQual (.str (pyLower q)) = .str (pyCapitalize q) := by
    rw [normalizeQual_of_not_upper (pyIsUpper_pyLower q), pyCapitalize_pyLower]
  refine ⟨h1, fun u hu => by simp [normalizeQual, hu], ?_, ?_⟩
  · exact getData_single_pos c data_name _ _ (h1.trans h2.symm)
  · exact getData_single_pos c data_name _ _ (h1.trans (normalizeQual_pyCapitalize q).symm)

/-- Witness for C8: the qualifier `"tOTAL"` (neither capitalized nor
upper-case) resolves like `"total"` and `"Total"` on a concrete field
container, successfully returning the stored handle. -/
theorem C8_witness :
    pyIsUpper "tOTAL" = false ∧ "tOTAL" ≠ pyCapitalize "tOTAL" ∧
    getData fixC8 "Bx" [.str "tOTAL"] [] = getData fixC8 "Bx" [.str (pyLower "tOTAL")] [] ∧
    getData fixC8 "Bx" [.str "tOTAL"] [] = getData fixC8 "Bx" [.str (pyCapitalize "tOTAL")] [] ∧
    getData fixC8 "Bx" [.str "tOTAL"] [] = .ok 7 := by
  refine ⟨by decide, by decide, ?_, ?_, by rfl⟩
  · exact (C8_case_normalization fixC8 "Bx" "tOTAL" (by decide) (by decide)).2.2.1
  · exact (C8_case_normalization fixC8 "Bx" "tOTAL" (by decide) (by decide)).2.2.2

/-! ### Claim C10 -/

/-- Claim C10: `Container.__getattr__` builds and returns the `get_data`
callable for every attribute name whatsoever without consulting the stored
data — attribute access itself never fails — and a dataset name present in
no bucket is detected only when the callable is invoked, which then
reports a not-found error for every possible argument list. -/
theorem C10_deferred_errors {H : Type} (c : ContainerC H) (data_name : String) :
    containerGetattr c data_name = .ok (getData c data_name) ∧
    (∀ (args : List Qual) (kwargs : List (String × Qual)) (hnd : H),
      (∀ p ∈ c.data_dict, lookupA data_name p.2 = none) →
      getData c data_name args kwargs ≠ .ok hnd) := by
  refine ⟨rfl, ?_⟩
  intro args kwargs hnd hall
  unfold getData
  split
  · simp
  · split
    · simp
    · cases hb : lookupA (normalizeQual (match args.head? with
        | some q => q
        | none => (lookupA c.key_name kwargs).getD c.default_key_value)) c.data_dict with
      | none => simp [hb]
      | some bucket =>
        have hnone := hall _ (lookupA_eq_some_mem hb)
        simp only at hnone
        simp [hb, hnone]

/-- Witness for C10: on a concrete container, accessing the never-inserted
name `Bz` yields the callable, and only its invocation fails. -/
theorem C10_witness :
    containerGetattr fixC10 "Bz" = .ok (getData fixC10 "Bz") ∧
    getData fixC10 "Bz" [] [] ≠ .ok 7 :=
  ⟨(C10_deferred_errors fixC10 "Bz").1,
   (C10_deferred_errors fixC10 "Bz").2 [] [] 7 (by decide)⟩

/-! ### Claim C5 -/

theorem dataProp_twice (h : DataHandle) :
    dataProp (dataProp h).2.1 = ((dataProp h).1, (dataProp h).2.1, 0) := by
  obtain ⟨file, name, ts, lz, dict, shp, dt⟩ := h
  rcases hl : lookupA name dict with _ | v
  · cases lz
    · simp [dataProp, hl, lookupA_updA_self]
    · cases shp <;> cases dt <;>
        simp [dataProp, getDataShape, getDataDtype, hl, lookupA_updA_self]
  · simp [dataProp, hl]

theorem xdataProp_twice (h : DataHandle) :
    xdataProp (xdataProp h).2.1 = ((xdataProp h).1, (xdataProp h).2.1, 0) := by
  obtain ⟨file, name, ts, lz, dict, shp, dt⟩ := h
  have e1 : ("X1 AXIS" ++ " coords" : String) = "X1 AXIS coords" := rfl
  have e2 : ("X1 AXIS" ++ " lims" : String) = "X1 AXIS lims" := rfl
  have hne : ("X1 AXIS coords" : String) ≠ "X1 AXIS lims" := by decide
  cases shp <;>
    rcases hc : lookupA "X1 AXIS coords" dict with _ | v <;>
    rcases hlim : lookupA "X1 AXIS lims" dict with _ | w <;>
    simp [xdataProp, getDataShape, computeCoordinates, getCoordinateLimits,
      e1, e2, hc, hlim, lookupA_updA_self, lookupA_updA_of_ne _ _ hne]

theorem ydataProp_twice (h : DataHandle) :
    ydataProp (ydataProp h).2.1 = ((ydataProp h).1, (ydataProp h).2.1, 0) := by
  obtain ⟨file, name, ts, lz, dict, shp, dt⟩ := h
  have e1 : ("X2 AXIS" ++ " coords" : String) = "X2 AXIS coords" := rfl
  have e2 : ("X2 AXIS" ++ " lims" : String) = "X2 AXIS lims" := rfl
  have hne : ("X2 AXIS coords" : String) ≠ "X2 AXIS lims" := by decide
  cases shp <;>
    rcases hc : lookupA "X2 AXIS coords" dict with _ | v <;>
    rcases hlim : lookupA "X2 AXIS lims" dict with _ | w <;>
    simp [ydataProp, getDataShape, computeCoordinates, getCoordinateLimits,
      e1, e2, hc, hlim, lookupA_updA_self, lookupA_updA_of_ne _ _ hne]

theorem xlimdataProp_twice (h : DataHandle) :
    xlimdataProp (xlimdataProp h).2.1 = ((xlimdataProp h).1, (xlimdataProp h).2.1, 0) := by
  obtain ⟨file, name, ts, lz, dict, shp, dt⟩ := h
  have e2 : ("X1 AXIS" ++ " lims" : String) = "X1 AXIS lims" := rfl
  rcases hl : lookupA "X1 AXIS lims" dict with _ | v <;>
    simp [xlimdataProp, getCoordinateLimits, e2, hl, lookupA_updA_self]

/-- Claim C5: each sub-resource of a `Data` handle is computed from the
backing file at most once per handle instance: re-accessing `data`,
`xdata`, `ydata`, or `xlimdata` on the handle returned by the first access
performs zero file opens, returns the same value, and leaves the handle
unchanged. -/
theorem C5_subresource_cached_once (h : DataHandle) :
    dataProp (dataProp h).2.1 = ((dataProp h).1, (dataProp h).2.1, 0) ∧
    xdataProp (xdataProp h).2.1 = ((xdataProp h).1, (xdataProp h).2.1, 0) ∧
    ydataProp (ydataProp h).2.1 = ((ydataProp h).1, (ydataProp h).2.1, 0) ∧
    xlimdataProp (xlimdataProp h).2.1 = ((xlimdataProp h).1, (xlimdataProp h).2.1, 0) :=
  ⟨dataProp_twice h, xdataProp_twice h, ydataProp_twice h, xlimdataProp_twice h⟩

/-! ### Claim C9 -/

theorem sortKeys_perm (l : List Nat) : (sortKeys l).Perm l :=
  List.perm_insertionSort _ l

theorem sortKeys_sorted (l : List Nat) : List.Sorted (· ≤ ·) (sortKeys l) :=
  List.sorted_insertionSort _ l

theorem sorted_head_zero {s : List Nat} (hs : List.Sorted (· ≤ ·) s) (h0 : 0 ∈ s) :
    s.head? = some 0 := by
  cases s with
  | nil => simp at h0
  | cons a t =>
    rcases List.mem_cons.mp h0 with h | h
    · simp [← h]
    · have ha : a ≤ 0 := (List.sorted_cons.mp hs).1 0 h
      simp [Nat.le_zero.mp ha]

/-- Claim C9: when the observed timestep set contains 0 and the
zero-exclusion flag is set, `timesteps()` enumerates the sorted,
duplicate-free nonzero observed timesteps — 0 is removed — while
`timestep(0)` still succeeds; and on a catalog observing 32, 0, 16 the
enumeration is `[16, 32]`. -/
theorem C9_timesteps_excludes_zero (cat : Catalog)
    (hex : cat.exclude_timestep_zero = true)
    (hnd : (cat.timesteps_dict.map Prod.fst).Nodup)
    (h0 : 0 ∈ cat.timesteps_dict.map Prod.fst) :
    List.Sorted (· ≤ ·) (timestepsFn cat) ∧
    (timestepsFn cat).Nodup ∧
    (∀ n, n ∈ timestepsFn cat ↔ (n ∈ cat.timesteps_dict.map Prod.fst ∧ n ≠ 0)) ∧
    (∃ t, timestepFn cat 0 = .ok t) ∧
    timestepsFn fixC9 = [16, 32] := by
  have hperm := sortKeys_perm (cat.timesteps_dict.map Prod.fst)
  have hsort := sortKeys_sorted (cat.timesteps_dict.map Prod.fst)
  have h0s : 0 ∈ sortKeys (cat.timesteps_dict.map Prod.fst) := hperm.mem_iff.mpr h0
  have hhead := sorted_head_zero hsort h0s
  have hndS : (sortKeys (cat.timesteps_dict.map Prod.fst)).Nodup := hperm.nodup_iff.mpr hnd
  obtain ⟨t, ht⟩ : ∃ t, sortKeys (cat.timesteps_dict.map Prod.fst) = 0 :: t := by
    cases hsk : sortKeys (cat.timesteps_dict.map Prod.fst) with
    | nil => rw [hsk] at hhead; simp at hhead
    | cons a t =>
      rw [hsk] at hhead
      simp only [List.head?_cons, Option.some_inj] at hhead
      exact ⟨t, by rw [hhead]⟩
  have htfn : timestepsFn cat = t := by
    unfold timestepsFn
    rw [ht, hex]
    simp
  have hsC : List.Sorted (· ≤ ·) (0 :: t) := ht ▸ hsort
  have hndC : (0 :: t).Nodup := ht ▸ hndS
  have h0nt : 0 ∉ t := (List.nodup_cons.mp hndC).1
  have hsT : List.Sorted (· ≤ ·) t := (List.sorted_cons.mp hsC).2
  have hndT : t.Nodup := (List.nodup_cons.mp hndC).2
  refine ⟨htfn ▸ hsT, htfn ▸ hndT, ?_, ?_, by decide⟩
  · intro n
    rw [htfn]
    constructor
    · intro hn
      refine ⟨hperm.mem_iff.mp (by rw [ht]; exact List.mem_cons_of_mem _ hn), ?_⟩
      rintro rfl
      exact h0nt hn
    · rintro ⟨hn, hne⟩
      have hmem : n ∈ 0 :: t := by rw [← ht]; exact hperm.mem_iff.mpr hn
      rcases List.mem_cons.mp hmem with h | h
      · exact absurd h hne
      · exact h
  · obtain ⟨b, hb⟩ := lookupA_isSome_of_mem_fst h0
    exact ⟨b, by unfold timestepFn; rw [hb]⟩

/-- Witness for C9 on the concrete catalog observing 32, 0, 16. -/
theorem C9_witness :
    List.Sorted (· ≤ ·) (timestepsFn fixC9) ∧
    (timestepsFn fixC9).Nodup ∧
    (16 ∈ timestepsFn fixC9 ↔ (16 ∈ fixC9.timesteps_dict.map Prod.fst ∧ (16 : ℕ) ≠ 0)) ∧
    (∃ t, timestepFn fixC9 0 = .ok t) :=
  ⟨(C9_timesteps_excludes_zero fixC9 (by decide) (by decide) (by decide)).1,
   (C9_timesteps_excludes_zero fixC9 (by decide) (by decide) (by decide)).2.1,
   (C9_timesteps_excludes_zero fixC9 (by decide) (by decide) (by decide)).2.2.1 16,
   (C9_timesteps_excludes_zero fixC9 (by decide) (by decide) (by decide)).2.2.2.1⟩

/-! ### Claim C1 -/

theorem traverseList_append (cat : Catalog) (l1 l2 : List Entry) :
    traverseList cat (l1 ++ l2) =
      match traverseList cat l1 with
      | .error e => .error e
      | .ok c2 => traverseList c2 l2 := by
  induction l1 generalizing cat with
  | nil => simp [traverseList]
  | cons e es ih =>
    simp only [List.cons_append, traverseList]
    cases traverseStep cat e with
    | error err => rfl
    | ok c2 => exact ih c2

theorem traverseList_skip_middle (cat : Catalog) (pre post : List Entry) (e : Entry)
    (hskip : ∀ c, traverseStep c e = .ok c) :
    traverseList cat (pre ++ e :: post) = traverseList cat (pre ++ post) := by
  rw [traverseList_append, traverseList_append]
  cases traverseList cat pre with
  | error err => rfl
  | ok c2 =>
    show traverseList c2 (e :: post) = traverseList c2 post
    simp [traverseList, hskip c2]

theorem traverseList_abort (cat cat2 : Catalog) (pre post : List Entry) (e : Entry)
    (err : PyError) (hpre : traverseList cat pre = .ok cat2)
    (herr : traverseStep cat2 e = .error err) :
    traverseList cat (pre ++ e :: post) = .error err := by
  rw [traverseList_append, hpre]
  show traverseList cat2 (e :: post) = .error err
  simp [traverseList, herr]

theorem traverseStep_unknown_kind (c : Catalog) (kind : String) (rest : List String)
    (fname : String) (h1 : kind ≠ "Fields") (h2 : kind ≠ "Phase") (h3 : kind ≠ "Raw") :
    traverseStep c ⟨kind :: rest, fname⟩ = .ok c := by
  unfold traverseStep
  cases timestepOf fname with
  | none => rfl
  | some ts =>
    unfold processFile
    simp only [List.head?_cons]
    split <;> simp_all

theorem traverseStep_unknown_category (c : Catalog) (category : String)
    (rest : List String) (fname : String)
    (hcat : lookupA category FIELD_MAPPING = none) :
    traverseStep c ⟨"Fields" :: category :: rest, fname⟩ = .ok c := by
  unfold traverseStep
  cases timestepOf fname with
  | none => rfl
  | some ts =>
    show processFile c ("Fields" :: category :: rest) fname ts = .ok c
    unfold processFile
    simp only [List.head?_cons]
    show processFieldCat c ("Fields" :: category :: rest) ts = .ok c
    unfold processFieldCat processFieldClassify
    simp [hcat]

/-- Claim C1 (amended): failure isolation holds for classification
*skips* only — a file with an unknown top-level kind, or a Fields file
with an unmapped category, is warned and skipped, and the traversal of
every other file proceeds exactly as if it were absent; but an entry whose
processing raises an uncaught exception (for example a species directory
with no digits) aborts the whole traversal, and the entries after it are
never processed. -/
theorem C1_partial_failure_isolation (cat cat2 : Catalog) (pre post : List Entry)
    (e : Entry) (err : PyError) :
    ((∀ c, traverseStep c e = .ok c) →
      traverseList cat (pre ++ e :: post) = traverseList cat (pre ++ post)) ∧
    (traverseList cat pre = .ok cat2 → traverseStep cat2 e = .error err →
      traverseList cat (pre ++ e :: post) = .error err) ∧
    (∀ (c : Catalog) (kind : String) (rest : List String) (fname : String),
      kind ≠ "Fields" → kind ≠ "Phase" → kind ≠ "Raw" →
      traverseStep c ⟨kind :: rest, fname⟩ = .ok c) ∧
    (∀ (c : Catalog) (category : String) (rest : List String) (fname : String),
      lookupA category FIELD_MAPPING = none →
      traverseStep c ⟨"Fields" :: category :: rest, fname⟩ = .ok c) :=
  ⟨traverseList_skip_middle cat pre post e,
   fun hpre herr => traverseList_abort cat cat2 pre post e err hpre herr,
   traverseStep_unknown_kind, traverseStep_unknown_category⟩

/-- Claim C1 counterexample: a single Raw file whose species directory
(`electrons`) has no digits aborts the whole traversal — the uncaught
`AttributeError` propagates — so the following well-formed Phase file is
never inserted and no catalog is produced. -/
theorem C1_counterexample :
    traverseList (initCatalog false true)
      [⟨["Raw", "electrons"], "part_4.h5"⟩, ⟨["Phase", "p1x1", "1"], "f_4.h5"⟩] =
      .error (.attributeError "NoneType object has no attribute group") := by
  rfl

/-- Witness for C1: a concrete unknown-kind entry is skipped without
disturbing its neighbours, and the concrete malformed-species Raw entry
aborts, dropping the file after it. -/
theorem C1_witness :
    traverseList (initCatalog false true)
      ([⟨["Phase", "p1x1", "1"], "f_4.h5"⟩] ++ (⟨["Junk", "a"], "g_3.h5"⟩ : Entry) ::
        [⟨["Raw", "sp1"], "r_4.h5"⟩]) =
      traverseList (initCatalog false true)
        ([⟨["Phase", "p1x1", "1"], "f_4.h5"⟩] ++ [⟨["Raw", "sp1"], "r_4.h5"⟩]) ∧
    traverseList (initCatalog false true)
      (([] : List Entry) ++ (⟨["Raw", "electrons"], "part_4.h5"⟩ : Entry) ::
        [⟨["Phase", "p1x1", "1"], "f_4.h5"⟩]) =
      .error (.attributeError "NoneType object has no attribute group") := by
  constructor
  · exact (C1_partial_failure_isolation (initCatalog false true) (initCatalog false true)
      [⟨["Phase", "p1x1", "1"], "f_4.h5"⟩] [⟨["Raw", "sp1"], "r_4.h5"⟩]
      ⟨["Junk", "a"], "g_3.h5"⟩ .keyError).1
      (fun c => traverseStep_unknown_kind c "Junk" ["a"] "g_3.h5"
        (by decide) (by decide) (by decide))
  · exact (C1_partial_failure_isolation (initCatalog false true) (initCatalog false true)
      [] [⟨["Phase", "p1x1", "1"], "f_4.h5"⟩] ⟨["Raw", "electrons"], "part_4.h5"⟩
      (.attributeError "NoneType object has no attribute group")).2.1 rfl rfl

/-! ### Claim C2 -/

theorem takeDigitsRun_all_digits {run : List Char} (h : ∀ c ∈ run, c.isDigit = true)
    {post : List Char} (hpost : ∀ c, post.head? = some c → c.isDigit = false) :
    takeDigitsRun (run ++ post) = run := by
  induction run with
  | nil =>
    cases post with
    | nil => rfl
    | cons p ps =>
      have hp := hpost p rfl
      simp [takeDigitsRun, hp]
  | cons r rs ih =>
    have hr : r.isDigit = true := h r (List.mem_cons_self r rs)
    simp only [List.cons_append, takeDigitsRun, hr, if_true]
    exact congrArg (List.cons r) (ih (fun c hc => h c (List.mem_cons_of_mem _ hc)))

theorem firstDigitRun_eq {pre run post : List Char}
    (hpre : ∀ c ∈ pre, c.isDigit = false)
    (hrun0 : run ≠ []) (hrun : ∀ c ∈ run, c.isDigit = true)
    (hpost : ∀ c, post.head? = some c → c.isDigit = false) :
    firstDigitRun (pre ++ run ++ post) = some run := by
  induction pre with
  | nil =>
    cases run with
    | nil => exact absurd rfl hrun0
    | cons r rs =>
      have hr : r.isDigit = true := hrun r (List.mem_cons_self r rs)
      simp only [List.nil_append, List.cons_append, firstDigitRun, hr, if_true]
      exact congrArg (fun l => some (r :: l))
        (takeDigitsRun_all_digits (fun c hc => hrun c (List.mem_cons_of_mem _ hc)) hpost)
  | cons p ps ih =>
    have hp : p.isDigit = false := hpre p (List.mem_cons_self p ps)
    simp only [List.cons_append, firstDigitRun, hp]
    exact ih (fun c hc => hpre c (List.mem_cons_of_mem _ hc))

theorem firstDigitRun_none {l : List Char} (h : ∀ c ∈ l, c.isDigit = false) :
    firstDigitRun l = none := by
  induction l with
  | nil => rfl
  | cons c cs ih =>
    have hc : c.isDigit = false := h c (List.mem_cons_self c cs)
    simp only [firstDigitRun, hc]
    exact ih (fun d hd => h d (List.mem_cons_of_mem _ hd))

theorem getElem?_append_last {α : Type} (l : List α) (x : α) :
    (l ++ [x])[(l ++ [x]).length - 1]? = some x := by
  have h : (l ++ [x]).length - 1 = l.length := by simp
  rw [h]
  exact List.getElem?_concat_length l x

/-- Claim C2 (amended): for Phase files the species qualifier `"Total"` is
kept as the literal species, any other qualifier is parsed as the integer
value of its first run of decimal digits, and classification raises when
no digit is present; for Raw files there is no `"Total"` case — the
species is always digit-parsed from the last path component, so a
`"Total"` raw species directory raises. -/
theorem C2_species_qualifier_parsing
    (s : String) (pre run post : List Char)
    (hs : s.data = pre ++ run ++ post)
    (hpre : ∀ c ∈ pre, c.isDigit = false)
    (hrun0 : run ≠ []) (hrun : ∀ c ∈ run, c.isDigit = true)
    (hpost : ∀ c, post.head? = some c → c.isDigit = false) :
    speciesSearch s = some (digitsToNat run) ∧
    phaseSpeciesParse "Total" = .ok .total ∧
    (s ≠ "Total" → phaseSpeciesParse s = .ok (.idx (digitsToNat run))) ∧
    (∀ t : String, t ≠ "Total" → (∀ c ∈ t.data, c.isDigit = false) →
      phaseSpeciesParse t =
        .error (.attributeError "NoneType object has no attribute group")) ∧
    rawSpeciesParse "Total" =
      .error (.attributeError "NoneType object has no attribute group") ∧
    (∀ (lz : Bool) (ts : Nat) (fn name0 : String) (mid : List String) (s2 : String),
      name0 ≠ "FluidVel" → name0 ≠ "PressureTen" →
      processPhaseClassify lz (("Phase" :: name0 :: mid) ++ [s2]) ts fn =
        (match phaseSpeciesParse s2 with
         | .error e => .err e
         | .ok sp =>
           .ok ⟨if name0 = "x3x2x1" ∧ hasPres fn.data then "P" else name0, ts, lz, sp⟩)) ∧
    (∀ (lz : Bool) (ts : Nat) (mid : List String) (s2 : String),
      processRawClassify lz (("Raw" :: mid) ++ [s2]) ts =
        (match rawSpeciesParse s2 with
         | .error e => .err e
         | .ok n => .ok ⟨"raw", ts, lz, n⟩)) := by
  have hsearch : speciesSearch s = some (digitsToNat run) := by
    unfold speciesSearch
    rw [hs, firstDigitRun_eq hpre hrun0 hrun hpost]
    rfl
  refine ⟨hsearch, rfl, ?_, ?_, rfl, ?_, ?_⟩
  · intro hne
    simp [phaseSpeciesParse, hne, hsearch]
  · intro t htne htnd
    have : speciesSearch t = none := by
      unfold speciesSearch
      rw [firstDigitRun_none htnd]
      rfl
    simp [phaseSpeciesParse, htne, this]
  · intro lz ts fn name0 mid s2 h1 h2
    unfold processPhaseClassify
    have hidx1 : (("Phase" :: name0 :: mid) ++ [s2])[1]? = some name0 := by
      simp
    have hlast : (("Phase" :: name0 :: mid) ++ [s2])[(("Phase" :: name0 :: mid) ++ [s2]).length - 1]?
        = some s2 := getElem?_append_last _ _
    rw [hidx1]
    simp only [h1, h2, or_self, if_false]
    rw [hlast]
    simp only [Option.getD_some]
  · intro lz ts mid s2
    unfold processRawClassify
    have hlast : (("Raw" :: mid) ++ [s2]).getLast? = some s2 := List.getLast?_concat _
    rw [hlast]

/-- Claim C2 counterexample: a Raw file whose species directory is
literally `Total` is not kept as the `"Total"` species — `_process_raw`
digit-parses unconditionally, and classification raises. -/
theorem C2_counterexample :
    processRawClassify false ["Raw", "Total"] 4 =
      .err (.attributeError "NoneType object has no attribute group") := by
  rfl

/-- Witness for C2 at the qualifier `sp02` (digits `02`, value 2), the
digit-free qualifier `electrons`, and the raw qualifier `Total`. -/
theorem C2_witness :
    speciesSearch "sp02" = some (digitsToNat ['0', '2']) ∧
    phaseSpeciesParse "sp02" = .ok (.idx (digitsToNat ['0', '2'])) ∧
    phaseSpeciesParse "electrons" =
      .error (.attributeError "NoneType object has no attribute group") ∧
    rawSpeciesParse "Total" =
      .error (.attributeError "NoneType object has no attribute group") := by
  have h := C2_species_qualifier_parsing "sp02" ['s', 'p'] ['0', '2'] []
    (by decide) (by decide) (by decide) (by decide)
    (by intro c hc; simp at hc)
  exact ⟨h.1, h.2.2.1 (by decide), h.2.2.2.1 "electrons" (by decide) (by decide),
    h.2.2.2.2.1⟩

/-! ### Claim C3 -/

/-- Claim C3 (amended): `create`'s duplicate-name check is scoped to one
bucket — the first input's `type` bucket for fields, its `species` bucket
for phases — not to the whole timestep.  A duplicate in that bucket raises
`ValueError` before anything is registered; a phase passing the check is
registered into that same timestep's species bucket; a field passing the
check is never registered, because `Timestep.add_field` raises
`AttributeError` reading the nonexistent `origin` attribute. -/
theorem C3_create_duplicate_scoping (cat : Catalog) (name : String) :
    (∀ (p : PhaseObj) (rest : List FPObj) (tsObj : TimestepC)
       (bucket : List (String × PhaseObj)),
      lookupA p.timestep cat.timesteps_dict = some tsObj →
      lookupA p.species tsObj.phases_dict = some bucket →
      bucket.any (fun kv => kv.2.name = name) = true →
      create cat name (.ph p :: rest) =
        .error (.valueError "Phase already exists at this timestep")) ∧
    (∀ (p : PhaseObj) (rest : List FPObj) (tsObj : TimestepC),
      lookupA p.timestep cat.timesteps_dict = some tsObj →
      ((lookupA p.species tsObj.phases_dict).getD []).any
          (fun kv => kv.2.name = name) = false →
      (∀ o ∈ rest, FPObj.timestep o = p.timestep) →
      ∃ cat2, create cat name (.ph p :: rest) =
          .ok (cat2, .ph ⟨name, p.timestep, p.lazyFlag, p.species⟩) ∧
        lookupA name ((lookupA p.species (getTs cat2 p.timestep).phases_dict).getD [])
          = some ⟨name, p.timestep, p.lazyFlag, p.species⟩) ∧
    (∀ (f : FieldObj) (rest : List FPObj) (tsObj : TimestepC)
       (bucket : List (String × FieldObj)),
      lookupA f.timestep cat.timesteps_dict = some tsObj →
      lookupA f.ftype tsObj.fields_dict = some bucket →
      bucket.any (fun kv => kv.2.name = name) = false →
      (∀ o ∈ rest, FPObj.timestep o = f.timestep) →
      create cat name (.fld f :: rest) =
        .error (.attributeError "Field object has no attribute origin")) := by
  refine ⟨?_, ?_, ?_⟩
  · intro p rest tsObj bucket h1 h2 h3
    simp [create, h1, h2, h3]
  · intro p rest tsObj h1 h2 hrest
    have hany : (FPObj.ph p :: rest).any
        (fun o => decide (o.timestep ≠ (FPObj.ph p).timestep)) = false := by
      rw [List.any_eq_false]
      intro o ho
      rcases List.mem_cons.mp ho with rfl | ho2
      · simp
      · have he : o.timestep = (FPObj.ph p).timestep := hrest o ho2
        simp [he]
    have hcheck : derivedTimestepCheck (.ph p :: rest) = .ok p.timestep := by
      unfold derivedTimestepCheck
      simp only [List.head?_cons, hany, Bool.false_eq_true, if_false]
      rfl
    refine ⟨{ lazyFlag := cat.lazyFlag, exclude_timestep_zero := cat.exclude_timestep_zero,
              timesteps_dict := updA p.timestep
                (addPhase tsObj ⟨name, p.timestep, p.lazyFlag, p.species⟩) cat.timesteps_dict,
              fieldNames := cat.fieldNames, phaseNames := addName name cat.phaseNames },
      ?_, ?_⟩
    · simp [create, h1, h2, hcheck]
    · simp only [getTs, lookupA_updA_self, Option.getD_some, addPhase]
  · intro f rest tsObj bucket h1 h2 h3 hrest
    have hany : (FPObj.fld f :: rest).any
        (fun o => decide (o.timestep ≠ (FPObj.fld f).timestep)) = false := by
      rw [List.any_eq_false]
      intro o ho
      rcases List.mem_cons.mp ho with rfl | ho2
      · simp
      · have he : o.timestep = (FPObj.fld f).timestep := hrest o ho2
        simp [he]
    have hcheck : derivedTimestepCheck (.fld f :: rest) = .ok f.timestep := by
      unfold derivedTimestepCheck
      simp only [List.head?_cons, hany, Bool.false_eq_true, if_false]
      rfl
    simp [create, h1, h2, h3, hcheck, addField]

/-- Claim C3 counterexample: at timestep 3 a Phase named `foo` already
exists (under species 1), yet creating a derived Phase named `foo` whose
first input has species 2 raises no validation error — the new object is
registered — because the duplicate check only inspects the species-2
bucket. -/
theorem C3_counterexample :
    (create fixC3 "foo" [.ph fixC3phase]).isOk = true ∧
    (create fixC3 "foo" [.ph fixC3phase]).toOption.map
        (fun pr => lookupA "foo"
          ((lookupA (Species.idx 2) (getTs pr.1 3).phases_dict).getD []))
      = some (some ⟨"foo", 3, false, Species.idx 2⟩) := by
  exact ⟨rfl, rfl⟩

/-- Witness for C3 on the concrete catalog: a same-bucket duplicate is
rejected, and a fresh derived Field is never registered (attribute
error). -/
theorem C3_witness :
    create fixC3 "foo" [.ph ⟨"x", 3, false, Species.idx 1⟩] =
      .error (.valueError "Phase already exists at this timestep") ∧
    create fixC3 "newF" [.fld ⟨"Bx", 3, false, "Total"⟩] =
      .error (.attributeError "Field object has no attribute origin") := by
  constructor
  · exact (C3_create_duplicate_scoping fixC3 "foo").1
      ⟨"x", 3, false, Species.idx 1⟩ []
      ⟨3, [("Total", []), ("External", []), ("Self", [])],
        [(Species.idx 1, [("foo", ⟨"foo", 3, false, Species.idx 1⟩)])], []⟩
      [("foo", ⟨"foo", 3, false, Species.idx 1⟩)]
      (by decide) (by decide) (by decide)
  · exact (C3_create_duplicate_scoping fixC3 "newF").2.2
      ⟨"Bx", 3, false, "Total"⟩ []
      ⟨3, [("Total", []), ("External", []), ("Self", [])],
        [(Species.idx 1, [("foo", ⟨"foo", 3, false, Species.idx 1⟩)])], []⟩
      [] (by decide) (by decide) (by decide)
      (by intro o ho; simp at ho)

end Dhy
